import Mathlib

/-!
Verification of the globus-sdk-python auth login clients, the Flows client
query construction, and the payload utilities, via a shallow embedding of
the Python source (src/globus_sdk) into Lean.

Python dicts are modelled as insertion-ordered association lists whose
assignment operation replaces the value of an existing key in place and
appends new keys at the end, matching CPython dict semantics.  Dynamic
values appearing in request bodies and query parameters are modelled by
the small `PyVal` universe.
-/

/-- A dynamically-typed value as it appears in Python request dicts:
strings, ints, bools, and lists of strings cover every value the embedded
code stores. -/
inductive PyVal where
  | str (s : String)
  | int (n : Int)
  | bool (b : Bool)
  | strlist (xs : List String)
deriving DecidableEq

/-- A Python dict with string keys, as an insertion-ordered assoc list. -/
abbrev Dict := List (String × PyVal)

/-- `d[k] = v`: replace the value of an existing key in place, else append. -/
def dictSet : Dict → String → PyVal → Dict
  | [], k, v => [(k, v)]
  | (k0, v0) :: d, k, v =>
      if k0 = k then (k, v) :: d else (k0, v0) :: dictSet d k v

/-- `d.get(k)`: first (and, for dicts built by `dictSet`, only) binding. -/
def dictGet : Dict → String → Option PyVal
  | [], _ => none
  | (k0, v0) :: d, k => if k0 = k then some v0 else dictGet d k

/-- `k in d`. -/
def hasKey (d : Dict) (k : String) : Bool :=
  (dictGet d k).isSome

/-- `d.update(other)`: assign every binding of `other` into `d` in order. -/
def dictUpdate (d other : Dict) : Dict :=
  other.foldl (fun acc kv => dictSet acc kv.1 kv.2) d

/-- `sep.join(xs)` with Python semantics (empty list gives the empty
string, a singleton gives its sole element). -/
def strJoin (sep : String) : List String → String
  | [] => ""
  | [x] => x
  | x :: y :: xs => x ++ sep ++ strJoin sep (y :: xs)

theorem dictGet_dictSet_self (d : Dict) (k : String) (v : PyVal) :
    dictGet (dictSet d k v) k = some v := by
  induction d with
  | nil => simp [dictSet, dictGet]
  | cons hd tl ih =>
      obtain ⟨k0, v0⟩ := hd
      by_cases h : k0 = k <;> simp [dictSet, dictGet, h, ih]

theorem dictGet_dictSet_ne (d : Dict) (k0 k : String) (v : PyVal) (h : k0 ≠ k) :
    dictGet (dictSet d k0 v) k = dictGet d k := by
  induction d with
  | nil => simp [dictSet, dictGet, h]
  | cons hd tl ih =>
      obtain ⟨k1, v1⟩ := hd
      simp only [dictSet]
      by_cases h1 : k1 = k0
      · simp [h1, dictGet, h]
      · simp only [h1, if_false]
        by_cases h2 : k1 = k <;> simp [dictGet, h2, ih]

theorem dictUpdate_nil (d : Dict) : dictUpdate d [] = d := rfl

theorem dictGet_dictUpdate_not_mem (d : Dict) (other : Dict) (k : String)
    (h : k ∉ other.map Prod.fst) :
    dictGet (dictUpdate d other) k = dictGet d k := by
  induction other generalizing d with
  | nil => rfl
  | cons hd tl ih =>
      obtain ⟨k0, v0⟩ := hd
      simp only [List.map_cons, List.mem_cons] at h
      push_neg at h
      show dictGet (dictUpdate (dictSet d k0 v0) tl) k = dictGet d k
      rw [ih _ h.2, dictGet_dictSet_ne _ _ _ _ (fun he => h.1 he.symm)]

theorem dictGet_dictUpdate (d : Dict) (other : Dict) (k : String)
    (hnd : (other.map Prod.fst).Nodup) :
    dictGet (dictUpdate d other) k =
      ((dictGet other k).rec (dictGet d k) (fun v => some v)) := by
  induction other generalizing d with
  | nil => rfl
  | cons hd tl ih =>
      obtain ⟨k0, v0⟩ := hd
      simp only [List.map_cons, List.nodup_cons] at hnd
      by_cases h : k0 = k
      · subst h
        show dictGet (dictUpdate (dictSet d k0 v0) tl) k0 = _
        rw [dictGet_dictUpdate_not_mem _ _ _ hnd.1, dictGet_dictSet_self]
        simp [dictGet]
      · show dictGet (dictUpdate (dictSet d k0 v0) tl) k = _
        rw [ih _ hnd.2, dictGet_dictSet_ne _ _ _ _ h]
        simp [dictGet, h]

/-!
## `globus_sdk.utils` string helpers

`safe_strseq_iter` and `commajoin` from src/src/globus_sdk/utils.py.
Their inputs are "a str, a UUID, or an iterable of stringifiable values";
we model that input universe with `Stringable` and `CommaJoinable`.
`Stringable.str` is Python `str(x)` (a UUID carries its canonical string
form).
-/

/-- A solitary stringifiable identifier: a `str`, or a `uuid.UUID` carried
as its canonical string form (`str(u)`). -/
inductive Stringable where
  | ofString (s : String)
  | ofUUID (s : String)
deriving DecidableEq

/-- Python `str(x)` on a `Stringable`. -/
def Stringable.str : Stringable → String
  | .ofString s => s
  | .ofUUID s => s

/-- The input universe of `commajoin` / `safe_strseq_iter`: a solitary
string or UUID, or a collection of them. -/
inductive CommaJoinable where
  | single (x : Stringable)
  | coll (xs : List Stringable)
deriving DecidableEq

/-- `utils.safe_strseq_iter`: a solitary str yields itself, a solitary
UUID yields its string form, and an iterable yields `str(x)` for each
member. -/
def safe_strseq_iter : CommaJoinable → List String
  | .single (.ofString s) => [s]
  | .single (.ofUUID s) => [s]
  | .coll xs => xs.map Stringable.str

/-- `utils.commajoin`: the source dispatches on `isinstance(val, Iterable)`.
A `str` and any collection are Iterable and go through
`",".join(safe_strseq_iter(val))`; a solitary UUID is not Iterable and is
returned as `str(val)`. -/
def commajoin : CommaJoinable → String
  | .single (.ofUUID s) => s
  | v => strJoin "," (safe_strseq_iter v)

/-- Modelled from the spec: `stringify_requested_scopes` (imported from
`.._common`, not under src/) turns a requested-scopes argument into the
space-joined scope string, defaulting to
`openid profile email urn:globus:auth:scope:transfer.api.globus.org:all`
when no scopes were requested (spec section 4.1: scope joined by
whitespace, with the stated default). -/
def stringify_requested_scopes : Option CommaJoinable → String
  | none => "openid profile email urn:globus:auth:scope:transfer.api.globus.org:all"
  | some v => strJoin " " (safe_strseq_iter v)

/-!
## Data model: authorizers, errors, flow manager, login client
-/

/-- A `GlobusAuthorizer`.  `nullAuthorizer` is `NullAuthorizer`; the other
constructors are "real" authorizers which actually produce an
`Authorization` header (`BasicAuthorizer`, bearer-token style). -/
inductive Authorizer where
  | nullAuthorizer
  | basicAuthorizer (username password : String)
  | accessTokenAuthorizer (token : String)
deriving DecidableEq

/-- `isinstance(a, NullAuthorizer)`. -/
def isNullAuthorizer : Authorizer → Bool
  | .nullAuthorizer => true
  | _ => false

/-- `_guards.is_optional(value, NullAuthorizer)` (the `_guards` module is
not under src/): true when the value is `None` or a `NullAuthorizer`.
Modelled from the spec: "If the client has no real authorizer
(null/absent)". -/
def Guards.is_optional_nullAuthorizer : Option Authorizer → Bool
  | none => true
  | some a => isNullAuthorizer a

/-- The error taxonomy of the SDK (spec section 7): a usage error
(`GlobusSDKUsageError`, local precondition violation), a transport/network
error, and an API (non-2xx HTTP) error.  The kinds are distinct by
constructor. -/
inductive SDKError where
  | usageError (msg : String)
  | networkError (msg : String)
  | apiError (status : Nat) (msg : String)
deriving DecidableEq

def SDKError.isUsageError : SDKError → Bool
  | .usageError _ => true
  | _ => false

def SDKError.isNetworkError : SDKError → Bool
  | .networkError _ => true
  | _ => false

def SDKError.isAPIError : SDKError → Bool
  | .apiError _ _ => true
  | _ => false

/-- Modelled from the spec: `GlobusAuthorizationCodeFlowManager` (the
`flow_managers` module is not under src/) holds the owning client's
identity (`client_id`), the redirect URI, the requested scopes, the
`state` correlation token, and the refresh-tokens flag (spec section 3,
"FlowManager"). -/
structure GlobusAuthorizationCodeFlowManager where
  client_id : Option String
  redirect_uri : String
  requested_scopes : Option CommaJoinable
  state : String
  refresh_tokens : Bool
deriving DecidableEq

/-- The mutable state of an `AuthLoginClient`
(src/src/globus_sdk/services/auth/client/base_login_client.py):
`client_id` (stringified or None), the authorizer passed to `BaseClient`,
and the single `current_oauth2_flow_manager` slot (initialized to None). -/
structure AuthLoginClient where
  client_id : Option String
  authorizer : Option Authorizer
  current_oauth2_flow_manager : Option GlobusAuthorizationCodeFlowManager
deriving DecidableEq

/-- Python truthiness of the `self.client_id` attribute: truthy exactly
when it is not None and not the empty string. -/
def pyTruthyStr : Option String → Bool
  | none => false
  | some s => !(s == "")

/-- One HTTP request as handed to the transport: method, path, query
parameters, body, and body encoding (`some "form"` for form-encoded
POST bodies). -/
structure HTTPRequest where
  method : String
  path : String
  query_params : Dict
  body : Dict
  encoding : Option String
deriving DecidableEq

/-- The observable outcome of one login-client method call: the client
state after the call, the returned value or raised error, and the list of
HTTP requests handed to the transport during the call. -/
structure MethodResult (α : Type) where
  client : AuthLoginClient
  result : Except SDKError α
  requests : List HTTPRequest

/-!
## Flow manager operations (modelled from the spec)

The `flow_managers` module is not under src/; only its callers are.  The
authorize-URL builder and the code-exchange request are modelled from
spec sections 4.1 and 6.
-/

/-- Rendering of a `PyVal` into a query-string component. -/
def pyValRender : PyVal → String
  | .str s => s
  | .int n => toString n
  | .bool b => if b then "True" else "False"
  | .strlist xs => strJoin "," xs

/-- Rendering of a query-parameter dict as `k=v` pairs joined by `&`. -/
def encodeQuery (d : Dict) : String :=
  strJoin "&" (d.map (fun kv => kv.1 ++ "=" ++ pyValRender kv.2))

/-- Modelled from the spec: the flow manager's `get_authorize_url` is a
pure function combining the fixed authorize-endpoint base with
`client_id`, `redirect_uri`, `response_type=code`, `state`, `scope`
(space-joined), `access_type=offline` when refresh tokens were requested,
and the supplied query parameters.  No network call, no side effect. -/
def GlobusAuthorizationCodeFlowManager.get_authorize_url
    (m : GlobusAuthorizationCodeFlowManager) (query_params : Dict) : String :=
  let base : Dict :=
    [("client_id", .str (m.client_id.getD "")),
     ("redirect_uri", .str m.redirect_uri),
     ("scope", .str (stringify_requested_scopes m.requested_scopes)),
     ("state", .str m.state),
     ("response_type", .str "code")]
  let base := if m.refresh_tokens then dictSet base "access_type" (.str "offline") else base
  "https://auth.globus.org/v2/oauth2/authorize?" ++ encodeQuery (dictUpdate base query_params)

/-- Modelled from the spec: the flow manager's `exchange_code_for_tokens`
issues one token-endpoint call with `grant_type=authorization_code` and
the code (spec section 4.1). -/
def GlobusAuthorizationCodeFlowManager.exchange_request
    (m : GlobusAuthorizationCodeFlowManager) (auth_code : String) : HTTPRequest :=
  { method := "POST"
    path := "/v2/oauth2/token"
    query_params := []
    body := [("grant_type", .str "authorization_code"),
             ("code", .str auth_code),
             ("redirect_uri", .str m.redirect_uri)]
    encoding := some "form" }

/-!
## `AuthLoginClient` methods
(src/src/globus_sdk/services/auth/client/base_login_client.py)
-/

/-- The exact `GlobusSDKUsageError` message raised by
`oauth2_get_authorize_url` when no flow is current. -/
def errMsgGetAuthorizeUrl : String :=
  "Cannot get authorize URL until starting an OAuth2 flow. Call the oauth2_start_flow() method on this AuthClient to resolve"

/-- The exact `GlobusSDKUsageError` message raised by
`oauth2_exchange_code_for_tokens` when no flow is current. -/
def errMsgExchangeCode : String :=
  "Cannot exchange auth code until starting an OAuth2 flow. Call the oauth2_start_flow() method on this AuthClient to resolve"

/-- `AuthLoginClient.oauth2_get_authorize_url`.  Mirrors the source: with
no current flow manager it raises a `GlobusSDKUsageError`; otherwise it
defaults `query_params` to a fresh dict, assigns the comma-joined
session-requirement parameters and `prompt` into that dict (note: Python
assigns into the caller-supplied dict object itself), and delegates to
the manager.  The returned pair is the URL together with the query-params
dict as it stands after the call — when the caller supplied a dict, this
is the state of the caller's own dict object on return. -/
def oauth2_get_authorize_url (c : AuthLoginClient)
    (session_required_identities : Option CommaJoinable)
    (session_required_single_domain : Option CommaJoinable)
    (session_required_policies : Option CommaJoinable)
    (prompt : Option String) (query_params : Option Dict) :
    MethodResult (String × Dict) :=
  match c.current_oauth2_flow_manager with
  | none =>
      { client := c, result := .error (.usageError errMsgGetAuthorizeUrl), requests := [] }
  | some mgr =>
      let qp := query_params.getD []
      let qp := match session_required_identities with
        | some v => dictSet qp "session_required_identities" (.str (commajoin v))
        | none => qp
      let qp := match session_required_single_domain with
        | some v => dictSet qp "session_required_single_domain" (.str (commajoin v))
        | none => qp
      let qp := match session_required_policies with
        | some v => dictSet qp "session_required_policies" (.str (commajoin v))
        | none => qp
      let qp := match prompt with
        | some p => dictSet qp "prompt" (.str p)
        | none => qp
      { client := c, result := .ok (mgr.get_authorize_url qp, qp), requests := [] }

/-- `AuthLoginClient.oauth2_exchange_code_for_tokens`: with no current
flow manager it raises a `GlobusSDKUsageError` before any request;
otherwise it delegates to the manager, which issues one token-endpoint
call. -/
def oauth2_exchange_code_for_tokens (c : AuthLoginClient) (auth_code : String) :
    MethodResult Unit :=
  match c.current_oauth2_flow_manager with
  | none =>
      { client := c, result := .error (.usageError errMsgExchangeCode), requests := [] }
  | some mgr =>
      { client := c, result := .ok (), requests := [mgr.exchange_request auth_code] }

/-- The response class through which a token-endpoint response is
decoded. -/
inductive ResponseClass where
  | oauthTokenResponse
  | oauthDependentTokenResponse
deriving DecidableEq

/-- `AuthLoginClient.oauth2_token`: copies `form_data`, merges
`body_params` into it when truthy, and issues one form-encoded POST to
`/v2/oauth2/token`, decoded through `response_class`. -/
def oauth2_token (form_data : Dict) (body_params : Option Dict)
    (response_class : ResponseClass) : HTTPRequest × ResponseClass :=
  let data := form_data
  let data := match body_params with
    | some bp => if bp.isEmpty then data else dictUpdate data bp
    | none => data
  ({ method := "POST", path := "/v2/oauth2/token", query_params := [],
     body := data, encoding := some "form" },
   response_class)

/-- `AuthLoginClient.oauth2_refresh_token`: delegates to `oauth2_token`
with `{refresh_token: <token>, grant_type: refresh_token}` and the
caller's extra body parameters. -/
def oauth2_refresh_token (refresh_token : String) (body_params : Option Dict) :
    HTTPRequest × ResponseClass :=
  oauth2_token
    [("refresh_token", .str refresh_token), ("grant_type", .str "refresh_token")]
    body_params
    .oauthTokenResponse

/-- `AuthLoginClient.oauth2_validate_token`: body `{token: <token>}`, plus
`client_id` when `_guards.is_optional(self.authorizer, NullAuthorizer)`
holds and `self.client_id` is truthy, plus `body_params` when truthy;
form-encoded POST to `/v2/oauth2/token/validate`. -/
def oauth2_validate_token (c : AuthLoginClient) (token : String)
    (body_params : Option Dict) : HTTPRequest :=
  let body : Dict := [("token", .str token)]
  let no_authentication := Guards.is_optional_nullAuthorizer c.authorizer
  let body :=
    if no_authentication && pyTruthyStr c.client_id then
      dictUpdate body [("client_id", .str (c.client_id.getD ""))]
    else body
  let body := match body_params with
    | some bp => if bp.isEmpty then body else dictUpdate body bp
    | none => body
  { method := "POST", path := "/v2/oauth2/token/validate", query_params := [],
    body := body, encoding := some "form" }

/-- `AuthLoginClient.oauth2_revoke_token`: same body construction as
validation, with the authorizer check written inline in the source
(`self.authorizer is None or isinstance(self.authorizer, NullAuthorizer)`);
form-encoded POST to `/v2/oauth2/token/revoke`. -/
def oauth2_revoke_token (c : AuthLoginClient) (token : String)
    (body_params : Option Dict) : HTTPRequest :=
  let body : Dict := [("token", .str token)]
  let no_authentication := match c.authorizer with
    | none => true
    | some a => isNullAuthorizer a
  let body :=
    if no_authentication && pyTruthyStr c.client_id then
      dictUpdate body [("client_id", .str (c.client_id.getD ""))]
    else body
  let body := match body_params with
    | some bp => if bp.isEmpty then body else dictUpdate body bp
    | none => body
  { method := "POST", path := "/v2/oauth2/token/revoke", query_params := [],
    body := body, encoding := some "form" }

/-!
## `ConfidentialAppAuthClient`
(src/src/globus_sdk/services/auth/client/confidential_client.py)
-/

/-- `ConfidentialAppAuthClient.__init__`: passes
`BasicAuthorizer(str(client_id), client_secret)` and the client id to the
base class; the flow-manager slot starts out as None. -/
def ConfidentialAppAuthClient_init (client_id client_secret : String) :
    AuthLoginClient :=
  { client_id := some client_id
    authorizer := some (.basicAuthorizer client_id client_secret)
    current_oauth2_flow_manager := none }

/-- `ConfidentialAppAuthClient.oauth2_start_flow`: instantiates a
`GlobusAuthorizationCodeFlowManager` (holding the owning client's
identity), stores it in `current_oauth2_flow_manager`, and returns it.
Total: no error path, whatever the slot held before. -/
def oauth2_start_flow (c : AuthLoginClient) (redirect_uri : String)
    (requested_scopes : Option CommaJoinable) (state : String)
    (refresh_tokens : Bool) :
    GlobusAuthorizationCodeFlowManager × AuthLoginClient :=
  let mgr : GlobusAuthorizationCodeFlowManager :=
    { client_id := c.client_id
      redirect_uri := redirect_uri
      requested_scopes := requested_scopes
      state := state
      refresh_tokens := refresh_tokens }
  (mgr, { c with current_oauth2_flow_manager := some mgr })

/-- `ConfidentialAppAuthClient.oauth2_client_credentials_tokens`:
delegates to `oauth2_token` with `grant_type=client_credentials` and the
stringified requested scopes, decoded through the default
`OAuthTokenResponse`. -/
def oauth2_client_credentials_tokens (requested_scopes : Option CommaJoinable) :
    HTTPRequest × ResponseClass :=
  oauth2_token
    [("grant_type", .str "client_credentials"),
     ("scope", .str (stringify_requested_scopes requested_scopes))]
    none
    .oauthTokenResponse

/-- `ConfidentialAppAuthClient.oauth2_get_dependent_tokens`: form data
with the dependent-token grant type and the token, `access_type=offline`
added when `refresh_tokens` is true, `additional_params` merged in when
truthy; decoded through `OAuthDependentTokenResponse`. -/
def oauth2_get_dependent_tokens (token : String) (refresh_tokens : Bool)
    (additional_params : Option Dict) : HTTPRequest × ResponseClass :=
  let form_data : Dict :=
    [("grant_type", .str "urn:globus:auth:grant_type:dependent_token"),
     ("token", .str token)]
  let form_data :=
    if refresh_tokens then dictSet form_data "access_type" (.str "offline")
    else form_data
  let form_data := match additional_params with
    | some ap => if ap.isEmpty then form_data else dictUpdate form_data ap
    | none => form_data
  oauth2_token form_data none .oauthDependentTokenResponse

/-!
## `FlowsClient` list endpoints
(src/src/globus_sdk/services/flows/client.py)

Only the request construction is embedded (the methods build a GET
request and hand it to the transport).  `orderby` is either a single
string or an iterable of strings, matching the `isinstance(orderby, str)`
dispatch in the source.
-/

/-- `FlowsClient.list_flows`: builds the query-parameter dict (defaulting
to a fresh dict) and issues `GET /flows`. -/
def list_flows (filter_role filter_fulltext : Option String)
    (orderby : Option (String ⊕ List String)) (marker : Option String)
    (query_params : Option Dict) : HTTPRequest :=
  let qp := query_params.getD []
  let qp := match filter_role with
    | some v => dictSet qp "filter_role" (.str v)
    | none => qp
  let qp := match filter_fulltext with
    | some v => dictSet qp "filter_fulltext" (.str v)
    | none => qp
  let qp := match orderby with
    | some (.inl s) => dictSet qp "orderby" (.str s)
    | some (.inr xs) => dictSet qp "orderby" (.strlist xs)
    | none => qp
  let qp := match marker with
    | some m => dictSet qp "marker" (.str m)
    | none => qp
  { method := "GET", path := "/flows", query_params := qp, body := [],
    encoding := none }

/-- `FlowsClient.list_runs`: `filter_flow_id` is comma-joined via
`",".join(utils.safe_strseq_iter(...))`; issues `GET /runs`. -/
def list_runs (filter_flow_id : Option CommaJoinable) (marker : Option String)
    (query_params : Option Dict) : HTTPRequest :=
  let qp := query_params.getD []
  let qp := match filter_flow_id with
    | some v => dictSet qp "filter_flow_id" (.str (strJoin "," (safe_strseq_iter v)))
    | none => qp
  let qp := match marker with
    | some m => dictSet qp "marker" (.str m)
    | none => qp
  { method := "GET", path := "/runs", query_params := qp, body := [],
    encoding := none }

/-- A dict whose values may still be Python `None`, as produced by the
literal `{"limit": limit, "reverse_order": reverse_order, "marker":
marker, **(query_params or {})}` in `get_run_logs`. -/
abbrev OptDict := List (String × Option PyVal)

/-- Assignment on an `OptDict` (same replace-or-append semantics). -/
def optDictSet : OptDict → String → Option PyVal → OptDict
  | [], k, v => [(k, v)]
  | (k0, v0) :: d, k, v =>
      if k0 = k then (k, v) :: d else (k0, v0) :: optDictSet d k v

/-- The comprehension `{k: v for k, v in d.items() if v is not None}`. -/
def dropNones (d : OptDict) : Dict :=
  d.filterMap (fun kv => kv.2.map (fun v => (kv.1, v)))

/-- `FlowsClient.get_run_logs`: merges the three named parameters with the
caller's `query_params`, filters out `None` values, and issues
`GET /runs/<run_id>/log`. -/
def get_run_logs (run_id : String) (limit : Option Int)
    (reverse_order : Option Bool) (marker : Option String)
    (query_params : Option Dict) : HTTPRequest :=
  let merged : OptDict :=
    (query_params.getD []).foldl (fun acc kv => optDictSet acc kv.1 (some kv.2))
      [("limit", limit.map .int), ("reverse_order", reverse_order.map .bool),
       ("marker", marker.map .str)]
  { method := "GET", path := "/runs/" ++ run_id ++ "/log",
    query_params := dropNones merged, body := [], encoding := none }

/-!
## `PayloadWrapper` optional-field setters
(src/src/globus_sdk/utils.py)

The wrapped `UserDict` data is the `Dict`; each typed setter folds
`_set_value` over its keyword arguments.  Keyword-argument lists carry
the per-setter value type (`Stringable` for `str`-converted values, an
iterable for `list(safe_strseq_iter(...))`, `Bool`, `Int`), with `none`
for a Python `None` value.
-/

/-- `PayloadWrapper._set_value`: skip `None`, else store
`callback(val)` under `key`. -/
def PayloadWrapper_set_value {α : Type} (d : Dict) (key : String)
    (val : Option α) (callback : α → PyVal) : Dict :=
  match val with
  | none => d
  | some v => dictSet d key (callback v)

/-- The shared loop `for k, v in kwargs.items(): self._set_value(k, v,
callback=...)` of the four typed setters. -/
def PayloadWrapper_set_opt {α : Type} (d : Dict)
    (kwargs : List (String × Option α)) (callback : α → PyVal) : Dict :=
  kwargs.foldl (fun acc kv => PayloadWrapper_set_value acc kv.1 kv.2 callback) d

/-- `PayloadWrapper._set_optstrs` (callback `str`). -/
def PayloadWrapper_set_optstrs (d : Dict)
    (kwargs : List (String × Option Stringable)) : Dict :=
  PayloadWrapper_set_opt d kwargs (fun x => .str x.str)

/-- `PayloadWrapper._set_optstrlists` (callback
`lambda x: list(safe_strseq_iter(x))`). -/
def PayloadWrapper_set_optstrlists (d : Dict)
    (kwargs : List (String × Option CommaJoinable)) : Dict :=
  PayloadWrapper_set_opt d kwargs (fun x => .strlist (safe_strseq_iter x))

/-- `PayloadWrapper._set_optbools` (callback `bool`; the identity on an
argument that is already a bool). -/
def PayloadWrapper_set_optbools (d : Dict)
    (kwargs : List (String × Option Bool)) : Dict :=
  PayloadWrapper_set_opt d kwargs (fun b => .bool b)

/-- `PayloadWrapper._set_optints` (callback `int`; the identity on an
argument that is already an int). -/
def PayloadWrapper_set_optints (d : Dict)
    (kwargs : List (String × Option Int)) : Dict :=
  PayloadWrapper_set_opt d kwargs (fun n => .int n)

/-- Specification-side description of what one key of the mapping holds
after a setter call: the callback image of the last-relevant (for Python
keyword arguments: the unique) non-`None` binding of that key in the
kwargs, and the original entry otherwise. -/
def settleKey {α : Type} (d : Dict) (kwargs : List (String × Option α))
    (callback : α → PyVal) (k : String) : Option PyVal :=
  match kwargs.find? (fun kv => kv.1 == k) with
  | none => dictGet d k
  | some kv =>
      match kv.2 with
      | none => dictGet d k
      | some v => some (callback v)

theorem set_value_get_ne {α : Type} (d : Dict) (k0 : String) (ov : Option α)
    (cb : α → PyVal) (k : String) (h : k0 ≠ k) :
    dictGet (PayloadWrapper_set_value d k0 ov cb) k = dictGet d k := by
  cases ov with
  | none => rfl
  | some v => exact dictGet_dictSet_ne _ _ _ _ h

theorem set_opt_get_not_mem {α : Type} (d : Dict)
    (kwargs : List (String × Option α)) (cb : α → PyVal) (k : String)
    (h : k ∉ kwargs.map Prod.fst) :
    dictGet (PayloadWrapper_set_opt d kwargs cb) k = dictGet d k := by
  induction kwargs generalizing d with
  | nil => rfl
  | cons hd tl ih =>
      obtain ⟨k0, ov⟩ := hd
      simp only [List.map_cons, List.mem_cons] at h
      push_neg at h
      show dictGet (PayloadWrapper_set_opt (PayloadWrapper_set_value d k0 ov cb) tl cb) k
        = dictGet d k
      rw [ih _ h.2, set_value_get_ne _ _ _ _ _ (fun he => h.1 he.symm)]

theorem set_opt_get {α : Type} (d : Dict) (kwargs : List (String × Option α))
    (cb : α → PyVal) (k : String) (hnd : (kwargs.map Prod.fst).Nodup) :
    dictGet (PayloadWrapper_set_opt d kwargs cb) k = settleKey d kwargs cb k := by
  induction kwargs generalizing d with
  | nil => rfl
  | cons hd tl ih =>
      obtain ⟨k0, ov⟩ := hd
      simp only [List.map_cons, List.nodup_cons] at hnd
      show dictGet (PayloadWrapper_set_opt (PayloadWrapper_set_value d k0 ov cb) tl cb) k
        = settleKey d ((k0, ov) :: tl) cb k
      by_cases h : k0 = k
      · subst h
        rw [set_opt_get_not_mem _ _ _ _ hnd.1]
        cases ov with
        | none => simp [PayloadWrapper_set_value, settleKey, List.find?]
        | some v =>
            simp [PayloadWrapper_set_value, settleKey, List.find?,
              dictGet_dictSet_self]
      · rw [ih _ hnd.2]
        have hg : dictGet (PayloadWrapper_set_value d k0 ov cb) k = dictGet d k :=
          set_value_get_ne _ _ _ _ _ h
        have hb : (k0 == k) = false := by
          simp [h]
        simp only [settleKey, List.find?, hb]
        cases hf : tl.find? (fun kv => kv.1 == k) with
        | none => simp [hf, hg]
        | some kv => cases kv.2 <;> simp [hf, hg]

/-!
## Sample values used by witnesses
-/

/-- A concrete flow manager, as produced by a flow start against
`redirect_uri="https://example.org/cb"`. -/
def sampleManager : GlobusAuthorizationCodeFlowManager :=
  { client_id := some "CID1"
    redirect_uri := "https://example.org/cb"
    requested_scopes := some (.single (.ofString "openid"))
    state := "_default"
    refresh_tokens := false }

/-- A login client on which no flow has been started. -/
def clientNoFlowSample : AuthLoginClient :=
  { client_id := some "CID1", authorizer := none,
    current_oauth2_flow_manager := none }

/-- A login client with a current flow manager. -/
def clientWithFlowSample : AuthLoginClient :=
  { client_id := some "CID1", authorizer := none,
    current_oauth2_flow_manager := some sampleManager }

/-- The query-params dict as it stands after a `oauth2_get_authorize_url`
call that returned successfully (None on the error path). -/
def resultQueryDict (r : MethodResult (String × Dict)) : Option Dict :=
  match r.result with
  | .ok p => some p.2
  | .error _ => none

/-- C1: on a client whose `current_oauth2_flow_manager` is None, both
`oauth2_get_authorize_url` and `oauth2_exchange_code_for_tokens` raise a
`GlobusSDKUsageError` — a kind distinct from the network and API error
kinds — and hand no request to the transport. -/
theorem C1_no_flow_usage_error (c : AuthLoginClient)
    (h : c.current_oauth2_flow_manager = none)
    (sri sdom spol : Option CommaJoinable) (prompt : Option String)
    (qp : Option Dict) (auth_code : String) :
    (oauth2_get_authorize_url c sri sdom spol prompt qp).result
        = .error (.usageError errMsgGetAuthorizeUrl)
    ∧ (oauth2_get_authorize_url c sri sdom spol prompt qp).requests = []
    ∧ (oauth2_exchange_code_for_tokens c auth_code).result
        = .error (.usageError errMsgExchangeCode)
    ∧ (oauth2_exchange_code_for_tokens c auth_code).requests = []
    ∧ (SDKError.usageError errMsgGetAuthorizeUrl).isUsageError = true
    ∧ (SDKError.usageError errMsgGetAuthorizeUrl).isNetworkError = false
    ∧ (SDKError.usageError errMsgGetAuthorizeUrl).isAPIError = false
    ∧ (SDKError.usageError errMsgExchangeCode).isUsageError = true
    ∧ (SDKError.usageError errMsgExchangeCode).isNetworkError = false
    ∧ (SDKError.usageError errMsgExchangeCode).isAPIError = false := by
  simp [oauth2_get_authorize_url, oauth2_exchange_code_for_tokens, h,
    SDKError.isUsageError, SDKError.isNetworkError, SDKError.isAPIError]

theorem C1_no_flow_usage_error_witness :
    (oauth2_get_authorize_url clientNoFlowSample none none none none none).result
        = .error (.usageError errMsgGetAuthorizeUrl)
    ∧ (oauth2_get_authorize_url clientNoFlowSample none none none none none).requests = []
    ∧ (oauth2_exchange_code_for_tokens clientNoFlowSample "CODE").result
        = .error (.usageError errMsgExchangeCode)
    ∧ (oauth2_exchange_code_for_tokens clientNoFlowSample "CODE").requests = []
    ∧ (SDKError.usageError errMsgGetAuthorizeUrl).isUsageError = true
    ∧ (SDKError.usageError errMsgGetAuthorizeUrl).isNetworkError = false
    ∧ (SDKError.usageError errMsgGetAuthorizeUrl).isAPIError = false
    ∧ (SDKError.usageError errMsgExchangeCode).isUsageError = true
    ∧ (SDKError.usageError errMsgExchangeCode).isNetworkError = false
    ∧ (SDKError.usageError errMsgExchangeCode).isAPIError = false :=
  C1_no_flow_usage_error clientNoFlowSample rfl none none none none none "CODE"

/-- C2: `oauth2_start_flow` constructs a new
`GlobusAuthorizationCodeFlowManager`, stores it in the
`current_oauth2_flow_manager` slot (the returned manager is the one now
referenced by that slot), silently replaces whatever the slot held, and
raises nothing (the operation is total); the constructed manager does not
depend on the previously stored one, and the rest of the client state is
untouched. -/
theorem C2_start_flow_stores_and_replaces (c : AuthLoginClient)
    (prev : Option GlobusAuthorizationCodeFlowManager) (redirect_uri : String)
    (requested_scopes : Option CommaJoinable) (st : String) (rt : Bool) :
    let cp : AuthLoginClient := { c with current_oauth2_flow_manager := prev }
    (oauth2_start_flow cp redirect_uri requested_scopes st rt).2.current_oauth2_flow_manager
        = some (oauth2_start_flow cp redirect_uri requested_scopes st rt).1
    ∧ (oauth2_start_flow cp redirect_uri requested_scopes st rt).1
        = { client_id := c.client_id, redirect_uri := redirect_uri,
            requested_scopes := requested_scopes, state := st,
            refresh_tokens := rt }
    ∧ (oauth2_start_flow cp redirect_uri requested_scopes st rt).1
        = (oauth2_start_flow c redirect_uri requested_scopes st rt).1
    ∧ (oauth2_start_flow cp redirect_uri requested_scopes st rt).2.client_id
        = c.client_id
    ∧ (oauth2_start_flow cp redirect_uri requested_scopes st rt).2.authorizer
        = c.authorizer := by
  simp [oauth2_start_flow]

/-- C3: with `body_params=None`, `oauth2_validate_token` and
`oauth2_revoke_token` build the same body; it holds `client_id` (with the
client's `client_id` value) exactly when the authorizer is None or a
`NullAuthorizer` and the `client_id` is truthy (non-None, non-empty), and
holds only the `token` key otherwise; the two methods post to their
respective endpoints. -/
theorem C3_unauthenticated_client_id_rule (c : AuthLoginClient) (token : String) :
    (oauth2_validate_token c token none).body = (oauth2_revoke_token c token none).body
    ∧ (oauth2_validate_token c token none).body
        = (if Guards.is_optional_nullAuthorizer c.authorizer && pyTruthyStr c.client_id then
            [("token", .str token), ("client_id", .str (c.client_id.getD ""))]
          else [("token", .str token)])
    ∧ hasKey (oauth2_validate_token c token none).body "client_id"
        = (Guards.is_optional_nullAuthorizer c.authorizer && pyTruthyStr c.client_id)
    ∧ (oauth2_validate_token c token none).path = "/v2/oauth2/token/validate"
    ∧ (oauth2_revoke_token c token none).path = "/v2/oauth2/token/revoke" := by
  have hsame :
      (match c.authorizer with
        | none => true
        | some a => isNullAuthorizer a)
      = Guards.is_optional_nullAuthorizer c.authorizer := by
    cases c.authorizer <;> rfl
  by_cases hcond :
      (Guards.is_optional_nullAuthorizer c.authorizer && pyTruthyStr c.client_id) = true
  · simp [oauth2_validate_token, oauth2_revoke_token, hsame, hcond, hasKey,
      dictUpdate, dictSet, dictGet]
  · simp only [Bool.not_eq_true] at hcond
    simp [oauth2_validate_token, oauth2_revoke_token, hsame, hcond, hasKey,
      dictGet]

/-- C10: a `ConfidentialAppAuthClient` is always constructed with a
`BasicAuthorizer` built from its client id and secret (never None, never
a `NullAuthorizer`), so `oauth2_validate_token` and `oauth2_revoke_token`
on such a client never place `client_id` in the body — the
unauthenticated branch is unreachable. -/
theorem C10_confidential_never_unauthenticated
    (client_id client_secret token : String) :
    (ConfidentialAppAuthClient_init client_id client_secret).authorizer
        = some (.basicAuthorizer client_id client_secret)
    ∧ Guards.is_optional_nullAuthorizer
        (ConfidentialAppAuthClient_init client_id client_secret).authorizer = false
    ∧ (oauth2_validate_token (ConfidentialAppAuthClient_init client_id client_secret)
        token none).body = [("token", .str token)]
    ∧ (oauth2_revoke_token (ConfidentialAppAuthClient_init client_id client_secret)
        token none).body = [("token", .str token)]
    ∧ hasKey (oauth2_validate_token (ConfidentialAppAuthClient_init client_id client_secret)
        token none).body "client_id" = false
    ∧ hasKey (oauth2_revoke_token (ConfidentialAppAuthClient_init client_id client_secret)
        token none).body "client_id" = false := by
  simp [ConfidentialAppAuthClient_init, oauth2_validate_token, oauth2_revoke_token,
    Guards.is_optional_nullAuthorizer, isNullAuthorizer, hasKey, dictGet]

/-- C4: `commajoin` on a collection is the comma-join of the stringified
members, on a solitary string or UUID it is that value's stringification,
and a solitary value gives the same string as the singleton collection
holding it; through `oauth2_get_authorize_url`, the
`session_required_identities` query parameter is exactly `commajoin` of
the input, whichever form was passed. -/
theorem C4_commajoin_normalization (x : Stringable) (xs : List Stringable)
    (c : AuthLoginClient) (mgr : GlobusAuthorizationCodeFlowManager)
    (h : c.current_oauth2_flow_manager = some mgr) (v : CommaJoinable) :
    commajoin (.coll xs) = strJoin "," (xs.map Stringable.str)
    ∧ commajoin (.single x) = x.str
    ∧ commajoin (.single x) = commajoin (.coll [x])
    ∧ (oauth2_get_authorize_url c (some v) none none none none).result
        = .ok
            (mgr.get_authorize_url
              [("session_required_identities", .str (commajoin v))],
             [("session_required_identities", .str (commajoin v))]) := by
  refine ⟨rfl, ?_, ?_, ?_⟩
  · cases x <;> rfl
  · cases x <;> rfl
  · simp [oauth2_get_authorize_url, h, dictSet]

theorem C4_commajoin_normalization_witness :
    commajoin (.coll [.ofString "a", .ofUUID "b"])
        = strJoin "," ([Stringable.ofString "a", Stringable.ofUUID "b"].map Stringable.str)
    ∧ commajoin (.single (.ofString "a")) = (Stringable.ofString "a").str
    ∧ commajoin (.single (.ofString "a")) = commajoin (.coll [.ofString "a"])
    ∧ (oauth2_get_authorize_url clientWithFlowSample
          (some (.coll [.ofString "a", .ofUUID "b"])) none none none none).result
        = .ok
            (sampleManager.get_authorize_url
              [("session_required_identities",
                .str (commajoin (.coll [.ofString "a", .ofUUID "b"])))],
             [("session_required_identities",
               .str (commajoin (.coll [.ofString "a", .ofUUID "b"])))]) :=
  C4_commajoin_normalization (.ofString "a") [.ofString "a", .ofUUID "b"]
    clientWithFlowSample sampleManager rfl (.coll [.ofString "a", .ofUUID "b"])

/-- C5 as frozen is false: `oauth2_get_authorize_url` assigns the
session-requirement parameters into the caller-supplied `query_params`
dict itself.  At a concrete client with a flow bound, a caller dict
`{"foo": "bar"}` and `session_required_identities="id1"`, the caller's
dict after the call has gained a key. -/
theorem C5_counterexample_query_params_mutated :
    resultQueryDict (oauth2_get_authorize_url clientWithFlowSample
        (some (.single (.ofString "id1"))) none none none
        (some [("foo", .str "bar")]))
      = some [("foo", .str "bar"), ("session_required_identities", .str "id1")]
    ∧ some [("foo", PyVal.str "bar"), ("session_required_identities", PyVal.str "id1")]
        ≠ some [("foo", PyVal.str "bar")] := by
  exact ⟨by decide, by decide⟩

/-- C5 amended: with a flow manager bound, `oauth2_get_authorize_url`
performs no network request and leaves the client state (including
`current_oauth2_flow_manager`) unchanged; a caller-supplied
`query_params` dict is left unmodified when no session-requirement
parameter and no prompt is supplied, but is mutated in place (gaining
those keys) when they are. -/
theorem C5_amended_no_request_client_unchanged (c : AuthLoginClient)
    (mgr : GlobusAuthorizationCodeFlowManager)
    (h : c.current_oauth2_flow_manager = some mgr)
    (sri sdom spol : Option CommaJoinable) (prompt : Option String)
    (qp : Dict) :
    (oauth2_get_authorize_url c sri sdom spol prompt (some qp)).client = c
    ∧ (oauth2_get_authorize_url c sri sdom spol prompt (some qp)).requests = []
    ∧ (sri = none → sdom = none → spol = none → prompt = none →
        resultQueryDict (oauth2_get_authorize_url c sri sdom spol prompt (some qp))
          = some qp) := by
  refine ⟨?_, ?_, ?_⟩
  · simp [oauth2_get_authorize_url, h]
  · simp [oauth2_get_authorize_url, h]
  · intro h1 h2 h3 h4
    subst h1; subst h2; subst h3; subst h4
    simp [oauth2_get_authorize_url, h, resultQueryDict]

theorem C5_amended_no_request_client_unchanged_witness :
    (oauth2_get_authorize_url clientWithFlowSample none none none none
        (some [("foo", .str "bar")])).client = clientWithFlowSample
    ∧ (oauth2_get_authorize_url clientWithFlowSample none none none none
        (some [("foo", .str "bar")])).requests = []
    ∧ ((none : Option CommaJoinable) = none → (none : Option CommaJoinable) = none →
        (none : Option CommaJoinable) = none → (none : Option String) = none →
        resultQueryDict (oauth2_get_authorize_url clientWithFlowSample none none none none
            (some [("foo", .str "bar")]))
          = some [("foo", .str "bar")]) :=
  C5_amended_no_request_client_unchanged clientWithFlowSample sampleManager rfl
    none none none none [("foo", .str "bar")]

/-- C6: `oauth2_refresh_token` issues one form-encoded POST to
`/v2/oauth2/token` whose body is `{refresh_token: <token>,
grant_type: refresh_token}` updated with `body_params`; a colliding
`body_params` entry overwrites the computed field; the response is
decoded through the default `OAuthTokenResponse` class of the generic
`oauth2_token` primitive. -/
theorem C6_refresh_token_body (refresh_token : String) (bp : Dict)
    (hnd : (bp.map Prod.fst).Nodup) :
    (oauth2_refresh_token refresh_token (some bp)).1.method = "POST"
    ∧ (oauth2_refresh_token refresh_token (some bp)).1.path = "/v2/oauth2/token"
    ∧ (oauth2_refresh_token refresh_token (some bp)).1.encoding = some "form"
    ∧ (oauth2_refresh_token refresh_token (some bp)).2 = .oauthTokenResponse
    ∧ (oauth2_refresh_token refresh_token (some bp)).1.body
        = dictUpdate
            [("refresh_token", .str refresh_token), ("grant_type", .str "refresh_token")]
            bp
    ∧ dictGet (oauth2_refresh_token refresh_token (some bp)).1.body "grant_type"
        = ((dictGet bp "grant_type").rec (some (PyVal.str "refresh_token"))
            (fun v => some v))
    ∧ dictGet (oauth2_refresh_token refresh_token (some bp)).1.body "refresh_token"
        = ((dictGet bp "refresh_token").rec (some (PyVal.str refresh_token))
            (fun v => some v)) := by
  have hbody : (oauth2_refresh_token refresh_token (some bp)).1.body
      = dictUpdate
          [("refresh_token", .str refresh_token), ("grant_type", .str "refresh_token")]
          bp := by
    by_cases hbp : bp.isEmpty
    · have hnil : bp = [] := by
        cases bp with
        | nil => rfl
        | cons a l => simp [List.isEmpty] at hbp
      subst hnil
      simp [oauth2_refresh_token, oauth2_token, dictUpdate]
    · simp [oauth2_refresh_token, oauth2_token, hbp]
  refine ⟨rfl, rfl, rfl, rfl, hbody, ?_, ?_⟩
  · rw [hbody, dictGet_dictUpdate _ _ _ hnd]
    cases dictGet bp "grant_type" <;> simp [dictGet]
  · rw [hbody, dictGet_dictUpdate _ _ _ hnd]
    cases dictGet bp "refresh_token" <;> simp [dictGet]

theorem C6_refresh_token_body_witness :
    (oauth2_refresh_token "RT1" (some [("grant_type", .str "override")])).1.method = "POST"
    ∧ (oauth2_refresh_token "RT1" (some [("grant_type", .str "override")])).1.path
        = "/v2/oauth2/token"
    ∧ (oauth2_refresh_token "RT1" (some [("grant_type", .str "override")])).1.encoding
        = some "form"
    ∧ (oauth2_refresh_token "RT1" (some [("grant_type", .str "override")])).2
        = .oauthTokenResponse
    ∧ (oauth2_refresh_token "RT1" (some [("grant_type", .str "override")])).1.body
        = dictUpdate
            [("refresh_token", .str "RT1"), ("grant_type", .str "refresh_token")]
            [("grant_type", .str "override")]
    ∧ dictGet (oauth2_refresh_token "RT1" (some [("grant_type", .str "override")])).1.body
          "grant_type"
        = ((dictGet [("grant_type", .str "override")] "grant_type").rec
            (some (PyVal.str "refresh_token")) (fun v => some v))
    ∧ dictGet (oauth2_refresh_token "RT1" (some [("grant_type", .str "override")])).1.body
          "refresh_token"
        = ((dictGet [("grant_type", .str "override")] "refresh_token").rec
            (some (PyVal.str "RT1")) (fun v => some v)) :=
  C6_refresh_token_body "RT1" [("grant_type", .str "override")] (by decide)

/-- C7: `oauth2_get_dependent_tokens` (with `additional_params=None`)
posts `grant_type=urn:globus:auth:grant_type:dependent_token` with the
token, includes `access_type` (value `offline`) iff `refresh_tokens` is
true, and decodes through the flat-list `OAuthDependentTokenResponse`
rather than the default; `oauth2_client_credentials_tokens` posts
`grant_type=client_credentials` with the stringified requested scopes and
decodes through the default `OAuthTokenResponse`. -/
theorem C7_dependent_and_client_credentials (token : String) (rts : Bool)
    (requested_scopes : Option CommaJoinable) :
    (oauth2_get_dependent_tokens token rts none).1.method = "POST"
    ∧ (oauth2_get_dependent_tokens token rts none).1.path = "/v2/oauth2/token"
    ∧ (oauth2_get_dependent_tokens token rts none).1.encoding = some "form"
    ∧ dictGet (oauth2_get_dependent_tokens token rts none).1.body "grant_type"
        = some (.str "urn:globus:auth:grant_type:dependent_token")
    ∧ dictGet (oauth2_get_dependent_tokens token rts none).1.body "token"
        = some (.str token)
    ∧ dictGet (oauth2_get_dependent_tokens token rts none).1.body "access_type"
        = (if rts then some (.str "offline") else none)
    ∧ hasKey (oauth2_get_dependent_tokens token rts none).1.body "access_type" = rts
    ∧ (oauth2_get_dependent_tokens token rts none).2 = .oauthDependentTokenResponse
    ∧ ResponseClass.oauthDependentTokenResponse ≠ ResponseClass.oauthTokenResponse
    ∧ (oauth2_client_credentials_tokens requested_scopes).1.body
        = [("grant_type", .str "client_credentials"),
           ("scope", .str (stringify_requested_scopes requested_scopes))]
    ∧ (oauth2_client_credentials_tokens requested_scopes).2 = .oauthTokenResponse
    ∧ (oauth2_client_credentials_tokens requested_scopes).1.path = "/v2/oauth2/token"
    ∧ (oauth2_client_credentials_tokens requested_scopes).1.encoding = some "form" := by
  cases rts <;>
    simp [oauth2_get_dependent_tokens, oauth2_client_credentials_tokens,
      oauth2_token, dictSet, dictGet, hasKey]

theorem list_flows_marker_lookup (filter_role filter_fulltext : Option String)
    (orderby : Option (String ⊕ List String)) (marker : Option String) :
    dictGet (list_flows filter_role filter_fulltext orderby marker none).query_params
        "marker"
      = marker.map PyVal.str := by
  rcases filter_role with _ | fr <;>
    rcases filter_fulltext with _ | ff <;>
      rcases orderby with _ | s | xs <;>
        rcases marker with _ | mk <;>
          simp [list_flows, dictSet, dictGet]

theorem list_runs_marker_lookup (filter_flow_id : Option CommaJoinable)
    (marker : Option String) :
    dictGet (list_runs filter_flow_id marker none).query_params "marker"
      = marker.map PyVal.str := by
  rcases filter_flow_id with _ | ffi <;>
    rcases marker with _ | mk <;>
      simp [list_runs, dictSet, dictGet]

theorem get_run_logs_marker_lookup (run_id : String) (limit : Option Int)
    (reverse_order : Option Bool) (marker : Option String) :
    dictGet (get_run_logs run_id limit reverse_order marker none).query_params "marker"
      = marker.map PyVal.str := by
  rcases limit with _ | lim <;>
    rcases reverse_order with _ | ro <;>
      rcases marker with _ | mk <;>
        simp [get_run_logs, dropNones, dictGet]

theorem option_map_isSome (marker : Option String) :
    (marker.map PyVal.str).isSome = marker.isSome := by
  cases marker <;> rfl

/-- C8: with `query_params=None`, the GET requests built by `list_flows`,
`list_runs`, and `get_run_logs` carry a `marker` query parameter holding
exactly the caller-supplied marker when one was given, and no `marker`
key at all when the marker argument was None. -/
theorem C8_marker_echoed_verbatim (filter_role filter_fulltext : Option String)
    (orderby : Option (String ⊕ List String)) (marker : Option String)
    (filter_flow_id : Option CommaJoinable) (run_id : String)
    (limit : Option Int) (reverse_order : Option Bool) :
    (list_flows filter_role filter_fulltext orderby marker none).method = "GET"
    ∧ dictGet (list_flows filter_role filter_fulltext orderby marker none).query_params
          "marker"
        = marker.map PyVal.str
    ∧ hasKey (list_flows filter_role filter_fulltext orderby marker none).query_params
          "marker"
        = marker.isSome
    ∧ (list_runs filter_flow_id marker none).method = "GET"
    ∧ dictGet (list_runs filter_flow_id marker none).query_params "marker"
        = marker.map PyVal.str
    ∧ hasKey (list_runs filter_flow_id marker none).query_params "marker"
        = marker.isSome
    ∧ (get_run_logs run_id limit reverse_order marker none).method = "GET"
    ∧ dictGet (get_run_logs run_id limit reverse_order marker none).query_params
          "marker"
        = marker.map PyVal.str
    ∧ hasKey (get_run_logs run_id limit reverse_order marker none).query_params
          "marker"
        = marker.isSome := by
  refine ⟨rfl, list_flows_marker_lookup _ _ _ _, ?_, rfl,
    list_runs_marker_lookup _ _, ?_, rfl,
    get_run_logs_marker_lookup _ _ _ _, ?_⟩
  · rw [hasKey, list_flows_marker_lookup, option_map_isSome]
  · rw [hasKey, list_runs_marker_lookup, option_map_isSome]
  · rw [hasKey, get_run_logs_marker_lookup, option_map_isSome]

/-- C9: for each typed optional setter of `PayloadWrapper`, a keyword
argument with value None leaves the wrapped mapping unchanged at its key
(the key is neither added nor overwritten), a non-None value is stored
under its key after conversion by the setter's callback, and every key
not named by the keyword arguments is untouched — `settleKey` states
exactly this per-key outcome. -/
theorem C9_optional_setters_frame (d : Dict) (k : String)
    (kwS : List (String × Option Stringable))
    (hS : (kwS.map Prod.fst).Nodup)
    (kwL : List (String × Option CommaJoinable))
    (hL : (kwL.map Prod.fst).Nodup)
    (kwB : List (String × Option Bool))
    (hB : (kwB.map Prod.fst).Nodup)
    (kwI : List (String × Option Int))
    (hI : (kwI.map Prod.fst).Nodup) :
    dictGet (PayloadWrapper_set_optstrs d kwS) k
        = settleKey d kwS (fun x => .str x.str) k
    ∧ dictGet (PayloadWrapper_set_optstrlists d kwL) k
        = settleKey d kwL (fun x => .strlist (safe_strseq_iter x)) k
    ∧ dictGet (PayloadWrapper_set_optbools d kwB) k
        = settleKey d kwB (fun b => .bool b) k
    ∧ dictGet (PayloadWrapper_set_optints d kwI) k
        = settleKey d kwI (fun n => .int n) k :=
  ⟨set_opt_get d kwS _ k hS, set_opt_get d kwL _ k hL,
   set_opt_get d kwB _ k hB, set_opt_get d kwI _ k hI⟩

theorem C9_optional_setters_frame_witness :
    dictGet (PayloadWrapper_set_optstrs [("keep", .str "old")]
        [("subtitle", some (.ofString "sub")), ("description", none)]) "keep"
        = settleKey [("keep", .str "old")]
            [("subtitle", some (.ofString "sub")), ("description", none)]
            (fun x : Stringable => PyVal.str x.str) "keep"
    ∧ dictGet (PayloadWrapper_set_optstrlists [("keep", .str "old")]
        [("ids", some (.coll [.ofUUID "u1"]))]) "keep"
        = settleKey [("keep", .str "old")] [("ids", some (.coll [.ofUUID "u1"]))]
            (fun x : CommaJoinable => PyVal.strlist (safe_strseq_iter x)) "keep"
    ∧ dictGet (PayloadWrapper_set_optbools [("keep", .str "old")]
        [("flag", some true), ("other", none)]) "keep"
        = settleKey [("keep", .str "old")] [("flag", some true), ("other", none)]
            (fun b : Bool => PyVal.bool b) "keep"
    ∧ dictGet (PayloadWrapper_set_optints [("keep", .str "old")]
        [("limit", some 10)]) "keep"
        = settleKey [("keep", .str "old")] [("limit", some 10)]
            (fun n : Int => PyVal.int n) "keep" :=
  C9_optional_setters_frame [("keep", .str "old")] "keep"
    [("subtitle", some (.ofString "sub")), ("description", none)] (by decide)
    [("ids", some (.coll [.ofUUID "u1"]))] (by decide)
    [("flag", some true), ("other", none)] (by decide)
    [("limit", some 10)] (by decide)
